import Mathlib

/-!
Verification of the authentication/authorization flow of a NestJS to-do-list
tutorial repository.  The embedding translates, from the TypeScript source:

* `prisma/schema.prisma`            — the `Users` model and the `Role` enum;
* `src/auth/auth.service.ts`        — `AuthService.register`, `AuthService.login`,
  `AuthService.checkExistingUser`, `AuthService.generateToken`;
* `src/auth/utils/password.util.ts` — `hashPassword` / `validatePassword`
  (thin wrappers over bcrypt);
* `jwt.strategy.ts`                 — `JwtStrategy` constructor and
  `JwtStrategy.validate`;
* the `RolesGuard.canActivate` guard of the authorization guide.

External collaborators (the Prisma store, bcrypt, the JWT library, the Nest
config service) are modelled as explicit data: the store is a list of rows
threaded through each operation, bcrypt is an abstract `Hasher` record of a
hash and a verify function, and a signed JWT is a record of its claims, the
secret it was signed with and its absolute expiry time.
-/

namespace NestAuth

/-- User roles, from `enum Role { admin  user }` in `prisma/schema.prisma`. -/
inductive Role where
| admin
| user
deriving DecidableEq, Repr

/-- The string value of a role, as stored by Prisma for the `Role` enum and
compared by `RolesGuard` (`roles.includes(user.role)`). -/
def Role.str : Role → String
| .admin => "admin"
| .user => "user"

/-- A row of the `Users` table (`prisma/schema.prisma`): `Id` (autoincrement),
`name`, `email` (unique), `password` (the stored hash), optional
`phone_number`, and `role` with schema default `user`.  The two timestamp
columns are omitted: no operation of the auth flow reads them.  The field
defaults mirror the schema defaults: an insert that supplies no `role` and no
`phone_number` gets `user` and `NULL`. -/
structure User where
  Id : Nat
  name : String
  email : String
  password : String
  phone_number : Option String := none
  role : Role := Role.user
deriving DecidableEq, Repr

/-- The Prisma-backed credential store: the list of `Users` rows plus the next
autoincrement id. -/
structure Store where
  users : List User
  nextId : Nat
deriving DecidableEq, Repr

/-- `prisma.users.findUnique({ where: { email } })`
(`AuthService.checkExistingUser`). -/
def findByEmail (st : Store) (email : String) : Option User :=
  st.users.find? (fun u => u.email == email)

/-- `prisma.users.findUnique({ where: { Id } })` (`JwtStrategy.validate`). -/
def findById (st : Store) (id : Nat) : Option User :=
  st.users.find? (fun u => u.Id == id)

/-- `prisma.users.create({ data: { email, name, password } })`: the insert in
`AuthService.register`.  The data object carries no `role` and no
`phone_number`, so the schema defaults (`user`, `NULL`) apply; `Id` is the
autoincrement counter. -/
def createUser (st : Store) (name email password : String) : User × Store :=
  let u : User := { Id := st.nextId, name := name, email := email, password := password }
  (u, { users := st.users ++ [u], nextId := st.nextId + 1 })

/-- Number of rows whose `email` column equals `email`. -/
def countEmail (st : Store) (email : String) : Nat :=
  (st.users.filter (fun u => u.email == email)).length

/-- The bcrypt collaborator of `password.util.ts`: `hash(password, saltRounds)`
and `compare(password, hash)`.  Salting and one-wayness are internal to the
library; theorems that need the library contract
`compare(p, hash(p, r)) = true` take it pointwise as a hypothesis. -/
structure Hasher where
  hash : String → Nat → String
  verify : String → String → Bool

/-- `hashPassword` of `password.util.ts`: `bcrypt.hash(password, salt)` with
the source's default of 10 salt rounds. -/
def hashPassword (H : Hasher) (password : String) (salt : Nat := 10) : String :=
  H.hash password salt

/-- `validatePassword` of `password.util.ts`: `bcrypt.compare(password,
hashedPassword)`. -/
def validatePassword (H : Hasher) (password hashedPassword : String) : Bool :=
  H.verify password hashedPassword

/-- The exception classes the flow can raise: `BadRequestException` (HTTP 400,
the only class `auth.service.ts` imports), `UnauthorizedException` (HTTP 401,
what the passport guard produces for a missing/invalid/expired token), and a
plain `Error` (what `JwtStrategy.validate` throws). -/
inductive ExceptionClass where
| badRequestException
| unauthorizedException
| plainError
deriving DecidableEq, Repr

/-- HTTP status of an exception class; a plain `Error` has no HTTP status of
its own and defaults to 500 outside the passport pipeline. -/
def ExceptionClass.httpStatus : ExceptionClass → Nat
| .badRequestException => 400
| .unauthorizedException => 401
| .plainError => 500

/-- An exception as observed by the caller: its class and its message. -/
structure AuthException where
  cls : ExceptionClass
  message : String
deriving DecidableEq, Repr

/-- The process-wide configuration read through `ConfigService`:
`JWT_SECRET` (`config.get` yields `undefined`, modelled `none`, when the
variable is missing) and `JWT_EXPIRES_IN` (a duration, modelled in seconds).
It is loaded once at startup by `ConfigModule.forRoot` and is read-only
afterwards. -/
structure AppConfig where
  jwtSecret : Option String
  jwtExpiresIn : Nat
deriving DecidableEq, Repr

/-- The JWT claims payload, from `interface Payload` in `auth.service.ts`:
`sub` (the user id) and `email`. -/
structure Payload where
  sub : Nat
  email : String
deriving DecidableEq, Repr

/-- A signed JWT as the external JWT library produces it: the claims, the
secret that signed it, and the absolute expiry instant. -/
structure Token where
  payload : Payload
  secret : Option String
  exp : Nat
deriving DecidableEq, Repr

/-- `jwt.signAsync(payload, { expiresIn, secret })`: sign the claims with the
given secret; `exp` is the signing instant plus `expiresIn`. -/
def jwtSign (p : Payload) (secret : Option String) (expiresIn now : Nat) : Token :=
  { payload := p, secret := secret, exp := now + expiresIn }

/-- Token verification as passport-jwt performs it with `secretOrKey` and the
default `ignoreExpiration: false`: the claims are released only if the token
was signed with the same secret and has not expired. -/
def jwtVerify (t : Token) (secret : String) (now : Nat) : Option Payload :=
  if t.secret = some secret ∧ now < t.exp then some t.payload else none

/-- `AuthService.generateToken`: sign the payload with
`expiresIn: config.get(JWT_EXPIRES_IN)` and `secret: config.get(JWT_SECRET)`. -/
def generateToken (cfg : AppConfig) (p : Payload) (now : Nat) : Token :=
  jwtSign p cfg.jwtSecret cfg.jwtExpiresIn now

/-- `RegisterDto` of `auth.dto.ts`: `name`, `email`, `password`.  The shape
carries no role field. -/
structure RegisterDto where
  name : String
  email : String
  password : String
deriving DecidableEq, Repr

/-- `LoginDto` of `auth.dto.ts`: `email`, `password`. -/
structure LoginDto where
  email : String
  password : String
deriving DecidableEq, Repr

/-- The class-validator decorators on `RegisterDto`: `name` `@IsNotEmpty`,
`email` `@IsEmail` (the library's syntactic email check, abstracted as the
parameter `isEmail`), `password` `@Length(7, 25)`. -/
def validRegisterDto (isEmail : String → Bool) (dto : RegisterDto) : Bool :=
  (dto.name != "") && isEmail dto.email
    && decide (7 ≤ dto.password.length) && decide (dto.password.length ≤ 25)

/-- The `user` object of the registration acknowledgment: `{ id, email }` only. -/
structure RegisterAckUser where
  id : Nat
  email : String
deriving DecidableEq, Repr

/-- The value `AuthService.register` returns on success:
`{ success, message, user: { id, email } }`.  The shape has no field for the
password or its hash. -/
structure RegisterResult where
  success : Bool
  message : String
  user : RegisterAckUser
deriving DecidableEq, Repr

/-- `AuthService.register`: look up the email; if a user exists, throw
`BadRequestException` with message `User already exists` and leave the store
untouched; otherwise hash the password, insert the row, and return the
acknowledgment built from the new row's `Id` and `email`. -/
def register (H : Hasher) (dto : RegisterDto) (st : Store) :
    Except AuthException RegisterResult × Store :=
  match findByEmail st dto.email with
  | some _ => (.error ⟨.badRequestException, "User already exists"⟩, st)
  | none =>
    let hashedPassword := hashPassword H dto.password
    let created := createUser st dto.name dto.email hashedPassword
    (.ok { success := true, message := "User registered successfully",
           user := { id := created.fst.Id, email := created.fst.email } },
     created.snd)

/-- The value `AuthService.login` returns on success: `{ access_token }`. -/
structure LoginResult where
  access_token : Token
deriving DecidableEq, Repr

/-- `AuthService.login`: look up the email; if absent, throw
`BadRequestException` with message `Invalid credentials`; if present but the
password fails `validatePassword`, throw the same exception; otherwise sign a
token over `{ sub: user.Id, email: user.email }`.  The store is only read. -/
def login (H : Hasher) (cfg : AppConfig) (now : Nat) (dto : LoginDto) (st : Store) :
    Except AuthException LoginResult × Store :=
  match findByEmail st dto.email with
  | none => (.error ⟨.badRequestException, "Invalid credentials"⟩, st)
  | some existingUser =>
    if validatePassword H dto.password existingUser.password then
      (.ok { access_token := generateToken cfg ⟨existingUser.Id, existingUser.email⟩ now }, st)
    else
      (.error ⟨.badRequestException, "Invalid credentials"⟩, st)

/-- The state the `JwtStrategy` constructor hands to `super`: the
`secretOrKey`.  A value of this type exists only if construction succeeded. -/
structure JwtStrategyCfg where
  secretOrKey : String
deriving DecidableEq, Repr

/-- The message of the construction-time error of `JwtStrategy`. -/
def jwtSecretMissingMsg : String := "JWT_SECRET is not defined in the configuration"

/-- The `JwtStrategy` constructor: read `JWT_SECRET` from the config and throw
if it is falsy — in JavaScript `!jwtSecret` is true both for `undefined`
(variable missing, modelled `none`) and for the empty string.  On success the
secret is captured once, at construction time, in the strategy state. -/
def jwtStrategyInit (cfg : AppConfig) : Except String JwtStrategyCfg :=
  match cfg.jwtSecret with
  | none => .error jwtSecretMissingMsg
  | some s => if s = "" then .error jwtSecretMissingMsg else .ok { secretOrKey := s }

/-- The identity `JwtStrategy.validate` returns:
`{ userId, name, email, role }`, all four read from the live store row. -/
structure ResolvedIdentity where
  userId : Nat
  name : String
  email : String
  role : Role
deriving DecidableEq, Repr

/-- The error `JwtStrategy.validate` throws when the token's subject no longer
names a row: `new Error` with message `Unauthorized`; the passport pipeline
surfaces it as an unauthenticated response. -/
def unauthenticatedError : AuthException := ⟨.plainError, "Unauthorized"⟩

/-- `JwtStrategy.validate(payload)`: re-fetch the user by `payload.sub`; throw
`unauthenticatedError` if gone; otherwise return
`{ userId: user.Id, name: user.name, email: user.email, role: user.role }`.
The `payload.email` claim is never read.  The store is only read. -/
def jwtStrategyValidate (st : Store) (payload : Payload) :
    Except AuthException ResolvedIdentity × Store :=
  match findById st payload.sub with
  | none => (.error unauthenticatedError, st)
  | some user => (.ok { userId := user.Id, name := user.name,
                        email := user.email, role := user.role }, st)

/-- ResolveIdentity: the passport guard first verifies signature and expiry
against the strategy's captured secret (failure is a 401
`UnauthorizedException`), then hands the claims to `JwtStrategy.validate`. -/
def resolveIdentity (sc : JwtStrategyCfg) (now : Nat) (t : Token) (st : Store) :
    Except AuthException ResolvedIdentity × Store :=
  match jwtVerify t sc.secretOrKey now with
  | none => (.error ⟨.unauthorizedException, "Unauthorized"⟩, st)
  | some payload => jwtStrategyValidate st payload

/-- `RolesGuard.canActivate`: `reflector.get` yields `undefined` (modelled
`none`) when the handler has no roles metadata, and `if (!roles) return true`
fires exactly then — a present but empty array is truthy in JavaScript, so it
falls through to `roles.includes(user.role)`, which is false for `[]`. -/
def canActivate (roles : Option (List String)) (userRole : String) : Bool :=
  match roles with
  | none => true
  | some rs => rs.contains userRole

/-- The spec's `Authorize(identity, requiredRoles)`: the guard applied to the
resolved identity's role string and the handler's roles metadata. -/
def authorize (identity : ResolvedIdentity) (requiredRoles : Option (List String)) : Bool :=
  canActivate requiredRoles identity.role.str

/-- A concrete hasher used to instantiate theorems: records enough of the
plaintext for its own verify to accept it, as a stand-in for the bcrypt
contract.  Not a model of bcrypt itself. -/
def toyHasher : Hasher where
  hash p _ := "$toy$" ++ p
  verify p h := h == "$toy$" ++ p

/-- If some stored row has the given email, `findByEmail` returns a row. -/
theorem findByEmail_of_mem (st : Store) (e : String)
    (h : ∃ u ∈ st.users, u.email = e) : ∃ w, findByEmail st e = some w := by
  have hs : (st.users.find? (fun u => u.email == e)).isSome = true := by
    rw [List.find?_isSome]
    obtain ⟨u, hu, he⟩ := h
    exact ⟨u, hu, by simp [he]⟩
  exact Option.isSome_iff_exists.mp hs

/-- If `findByEmail` misses, no stored row has that email. -/
theorem countEmail_eq_zero (st : Store) (e : String)
    (h : findByEmail st e = none) : countEmail st e = 0 := by
  simp only [countEmail, List.length_eq_zero, List.filter_eq_nil_iff]
  exact List.find?_eq_none.mp h

/-- C1: a registration whose input passes validation, whose email is free, and
for which the hasher meets its contract at that password, succeeds: exactly
one new row is appended, its stored password is the hash and
`validatePassword` accepts the original plaintext against it, its role is the
default `user`, and the acknowledgment is built only from the new row's id and
email (the `RegisterResult` shape has no field for the hash or the
plaintext). -/
theorem register_success (H : Hasher) (isEmail : String → Bool) (dto : RegisterDto) (st : Store)
    (hvalid : validRegisterDto isEmail dto = true)
    (habsent : findByEmail st dto.email = none)
    (hhash : H.verify dto.password (H.hash dto.password 10) = true) :
    ∃ u : User,
      register H dto st =
        (.ok { success := true, message := "User registered successfully",
               user := { id := u.Id, email := u.email } },
         { users := st.users ++ [u], nextId := st.nextId + 1 }) ∧
      u.email = dto.email ∧ u.Id = st.nextId ∧ u.role = Role.user ∧
      validatePassword H dto.password u.password = true := by
  refine ⟨{ Id := st.nextId, name := dto.name, email := dto.email,
            password := H.hash dto.password 10 }, ?_, rfl, rfl, rfl, ?_⟩
  · simp [register, habsent, createUser, hashPassword]
  · simpa [validatePassword] using hhash

/-- Witness for C1 at Register("Jane", "jane@x.com", "secret12") on an empty
store. -/
theorem register_success_witness :
    ∃ u : User,
      register toyHasher { name := "Jane", email := "jane@x.com", password := "secret12" }
          { users := [], nextId := 1 } =
        (.ok { success := true, message := "User registered successfully",
               user := { id := u.Id, email := u.email } },
         { users := ([] : List User) ++ [u], nextId := 1 + 1 }) ∧
      u.email = "jane@x.com" ∧ u.Id = 1 ∧ u.role = Role.user ∧
      validatePassword toyHasher "secret12" u.password = true :=
  register_success toyHasher (fun s => s.data.contains '@')
    { name := "Jane", email := "jane@x.com", password := "secret12" }
    { users := [], nextId := 1 } (by decide) (by rfl) (by decide)

/-- C2: registering an email that is already stored fails with the
`BadRequestException` whose message is `User already exists` and returns the
store unchanged; registering twice with the same email from a store without
it leaves the second call failing the same way and exactly one row with that
email in the final store. -/
theorem register_duplicate_once (H H₂ : Hasher) (dto : RegisterDto) (st st₀ : Store)
    (hpresent : ∃ u ∈ st.users, u.email = dto.email)
    (habsent : findByEmail st₀ dto.email = none) :
    register H dto st = (.error ⟨.badRequestException, "User already exists"⟩, st) ∧
    (register H₂ dto (register H dto st₀).snd).fst
      = .error ⟨.badRequestException, "User already exists"⟩ ∧
    (register H₂ dto (register H dto st₀).snd).snd = (register H dto st₀).snd ∧
    countEmail (register H₂ dto (register H dto st₀).snd).snd dto.email = 1 := by
  obtain ⟨w, hw⟩ := findByEmail_of_mem st dto.email hpresent
  have hdup : ∀ (Hh : Hasher) (st' : Store) (w' : User),
      findByEmail st' dto.email = some w' →
      register Hh dto st' = (.error ⟨.badRequestException, "User already exists"⟩, st') := by
    intro Hh st' w' hw'
    simp [register, hw']
  have ha := hdup H st w hw
  have hst₁ : (register H dto st₀).snd =
      { users := st₀.users ++ [{ Id := st₀.nextId, name := dto.name, email := dto.email,
                                 password := hashPassword H dto.password }],
        nextId := st₀.nextId + 1 } := by
    simp [register, habsent, createUser]
  obtain ⟨w₂, hw₂⟩ : ∃ w₂, findByEmail (register H dto st₀).snd dto.email = some w₂ := by
    apply findByEmail_of_mem
    rw [hst₁]
    exact ⟨_, List.mem_append_right _ (List.mem_singleton_self _), rfl⟩
  have hb := hdup H₂ (register H dto st₀).snd w₂ hw₂
  have h0 : st₀.users.filter (fun u => u.email == dto.email) = [] :=
    List.filter_eq_nil_iff.mpr (List.find?_eq_none.mp habsent)
  have hcount : countEmail (register H dto st₀).snd dto.email = 1 := by
    rw [hst₁]
    simp [countEmail, List.filter_append, h0]
  exact ⟨ha, by rw [hb], by rw [hb], by rw [hb]; exact hcount⟩

/-- Witness for C2: a store already holding the email, and a double
registration from an empty store. -/
theorem register_duplicate_once_witness :
    register toyHasher { name := "n", email := "e", password := "p" }
        { users := [{ Id := 1, name := "n", email := "e", password := "q" }], nextId := 2 }
      = (.error ⟨.badRequestException, "User already exists"⟩,
         { users := [{ Id := 1, name := "n", email := "e", password := "q" }], nextId := 2 }) ∧
    (register toyHasher { name := "n", email := "e", password := "p" }
        (register toyHasher { name := "n", email := "e", password := "p" }
          { users := [], nextId := 1 }).snd).fst
      = .error ⟨.badRequestException, "User already exists"⟩ ∧
    (register toyHasher { name := "n", email := "e", password := "p" }
        (register toyHasher { name := "n", email := "e", password := "p" }
          { users := [], nextId := 1 }).snd).snd
      = (register toyHasher { name := "n", email := "e", password := "p" }
          { users := [], nextId := 1 }).snd ∧
    countEmail (register toyHasher { name := "n", email := "e", password := "p" }
        (register toyHasher { name := "n", email := "e", password := "p" }
          { users := [], nextId := 1 }).snd).snd "e" = 1 :=
  register_duplicate_once toyHasher toyHasher
    { name := "n", email := "e", password := "p" }
    { users := [{ Id := 1, name := "n", email := "e", password := "q" }], nextId := 2 }
    { users := [], nextId := 1 } (by decide) (by rfl)

/-- C3: a login whose email has no stored row and a login whose email matches
a row but whose password fails hash verification both fail with the same
`BadRequestException` carrying the message `Invalid credentials`; the two
outcomes are content-equal, so the caller cannot tell an unknown user from a
wrong password. -/
theorem login_enumeration_resistance (H : Hasher) (cfg : AppConfig) (now : Nat)
    (d₁ d₂ : LoginDto) (st : Store) (u : User)
    (h₁ : findByEmail st d₁.email = none)
    (h₂ : findByEmail st d₂.email = some u)
    (hv : H.verify d₂.password u.password = false) :
    login H cfg now d₁ st = (.error ⟨.badRequestException, "Invalid credentials"⟩, st) ∧
    login H cfg now d₂ st = (.error ⟨.badRequestException, "Invalid credentials"⟩, st) ∧
    login H cfg now d₁ st = login H cfg now d₂ st := by
  have ha : login H cfg now d₁ st
      = (.error ⟨.badRequestException, "Invalid credentials"⟩, st) := by
    simp [login, h₁]
  have hb : login H cfg now d₂ st
      = (.error ⟨.badRequestException, "Invalid credentials"⟩, st) := by
    simp [login, h₂, validatePassword, hv]
  exact ⟨ha, hb, ha.trans hb.symm⟩

/-- Witness for C3: one unknown email and one wrong password against the same
one-row store. -/
theorem login_enumeration_resistance_witness :
    login toyHasher { jwtSecret := some "k", jwtExpiresIn := 3600 } 0 { email := "x", password := "p" }
        { users := [{ Id := 1, name := "n", email := "e", password := "$toy$p" }], nextId := 2 }
      = (.error ⟨.badRequestException, "Invalid credentials"⟩,
         { users := [{ Id := 1, name := "n", email := "e", password := "$toy$p" }], nextId := 2 }) ∧
    login toyHasher { jwtSecret := some "k", jwtExpiresIn := 3600 } 0 { email := "e", password := "wrong" }
        { users := [{ Id := 1, name := "n", email := "e", password := "$toy$p" }], nextId := 2 }
      = (.error ⟨.badRequestException, "Invalid credentials"⟩,
         { users := [{ Id := 1, name := "n", email := "e", password := "$toy$p" }], nextId := 2 }) ∧
    login toyHasher { jwtSecret := some "k", jwtExpiresIn := 3600 } 0 { email := "x", password := "p" }
        { users := [{ Id := 1, name := "n", email := "e", password := "$toy$p" }], nextId := 2 }
      = login toyHasher { jwtSecret := some "k", jwtExpiresIn := 3600 } 0 { email := "e", password := "wrong" }
        { users := [{ Id := 1, name := "n", email := "e", password := "$toy$p" }], nextId := 2 } :=
  login_enumeration_resistance toyHasher { jwtSecret := some "k", jwtExpiresIn := 3600 } 0
    { email := "x", password := "p" } { email := "e", password := "wrong" }
    { users := [{ Id := 1, name := "n", email := "e", password := "$toy$p" }], nextId := 2 }
    { Id := 1, name := "n", email := "e", password := "$toy$p" }
    (by rfl) (by rfl) (by decide)

/-- C4: a successful login signs a token whose claims are
`{ sub: user.Id, email: user.email }`, and feeding that token to
ResolveIdentity while it is unexpired, with the account still stored, returns
the identity whose id and email are the user's.  The strategy construction
succeeds on the same configuration. -/
theorem login_resolve_roundtrip (H : Hasher) (cfg : AppConfig) (k : String)
    (now nowR : Nat) (dto : LoginDto) (st : Store) (u : User)
    (hsec : cfg.jwtSecret = some k) (hk : k ≠ "")
    (hfind : findByEmail st dto.email = some u)
    (hv : H.verify dto.password u.password = true)
    (hid : findById st u.Id = some u)
    (hfresh : nowR < now + cfg.jwtExpiresIn) :
    jwtStrategyInit cfg = .ok { secretOrKey := k } ∧
    ∃ t : Token,
      login H cfg now dto st = (.ok { access_token := t }, st) ∧
      t.payload = { sub := u.Id, email := u.email } ∧
      resolveIdentity { secretOrKey := k } nowR t st
        = (.ok { userId := u.Id, name := u.name, email := u.email, role := u.role }, st) := by
  refine ⟨?_, generateToken cfg { sub := u.Id, email := u.email } now, ?_, rfl, ?_⟩
  · simp [jwtStrategyInit, hsec, hk]
  · simp [login, hfind, validatePassword, hv]
  · have hver : jwtVerify (generateToken cfg { sub := u.Id, email := u.email } now) k nowR
        = some { sub := u.Id, email := u.email } := by
      simp [jwtVerify, generateToken, jwtSign, hsec, hfresh]
    simp [resolveIdentity, hver, jwtStrategyValidate, hid]

/-- Witness for C4: register state with one user, fresh token checked one
second after issuance. -/
theorem login_resolve_roundtrip_witness :
    jwtStrategyInit { jwtSecret := some "k", jwtExpiresIn := 3600 } = .ok { secretOrKey := "k" } ∧
    ∃ t : Token,
      login toyHasher { jwtSecret := some "k", jwtExpiresIn := 3600 } 0
          { email := "e", password := "p" }
          { users := [{ Id := 1, name := "n", email := "e", password := "$toy$p" }], nextId := 2 }
        = (.ok { access_token := t },
           { users := [{ Id := 1, name := "n", email := "e", password := "$toy$p" }], nextId := 2 }) ∧
      t.payload = { sub := 1, email := "e" } ∧
      resolveIdentity { secretOrKey := "k" } 1 t
          { users := [{ Id := 1, name := "n", email := "e", password := "$toy$p" }], nextId := 2 }
        = (.ok { userId := 1, name := "n", email := "e", role := Role.user },
           { users := [{ Id := 1, name := "n", email := "e", password := "$toy$p" }], nextId := 2 }) :=
  login_resolve_roundtrip toyHasher { jwtSecret := some "k", jwtExpiresIn := 3600 } "k" 0 1
    { email := "e", password := "p" }
    { users := [{ Id := 1, name := "n", email := "e", password := "$toy$p" }], nextId := 2 }
    { Id := 1, name := "n", email := "e", password := "$toy$p" }
    rfl (by decide) (by rfl) (by decide) (by rfl) (by decide)

/-- C5: when a token passes signature and expiry verification but its subject
claim names no stored row, ResolveIdentity fails with the error
`JwtStrategy.validate` throws; and ResolveIdentity never changes the store,
whatever the token and the clock. -/
theorem resolve_deleted_user (sc : JwtStrategyCfg) (now : Nat) (t : Token) (st : Store)
    (p : Payload)
    (hok : jwtVerify t sc.secretOrKey now = some p)
    (hgone : findById st p.sub = none) :
    (resolveIdentity sc now t st).fst = .error unauthenticatedError ∧
    (∀ (tAny : Token) (nowAny : Nat), (resolveIdentity sc nowAny tAny st).snd = st) := by
  constructor
  · simp [resolveIdentity, hok, jwtStrategyValidate, hgone]
  · intro tAny nowAny
    cases hv : jwtVerify tAny sc.secretOrKey nowAny with
    | none => simp [resolveIdentity, hv]
    | some q =>
      cases hu : findById st q.sub with
      | none => simp [resolveIdentity, hv, jwtStrategyValidate, hu]
      | some x => simp [resolveIdentity, hv, jwtStrategyValidate, hu]

/-- Witness for C5: a well-signed unexpired token whose subject is absent from
an empty store. -/
theorem resolve_deleted_user_witness :
    (resolveIdentity { secretOrKey := "k" } 0
        { payload := { sub := 1, email := "e" }, secret := some "k", exp := 10 }
        { users := [], nextId := 1 }).fst = .error unauthenticatedError ∧
    (∀ (tAny : Token) (nowAny : Nat),
      (resolveIdentity { secretOrKey := "k" } nowAny tAny { users := [], nextId := 1 }).snd
        = { users := [], nextId := 1 }) :=
  resolve_deleted_user { secretOrKey := "k" } 0
    { payload := { sub := 1, email := "e" }, secret := some "k", exp := 10 }
    { users := [], nextId := 1 } { sub := 1, email := "e" } (by rfl) (by rfl)

/-- C6 counterexample: with roles metadata present but the empty array — the
value a bare `@Roles()` decorator stores — the guard denies every identity:
an empty array is truthy in JavaScript, so `if (!roles) return true` does not
fire and `[].includes(user.role)` is false.  This refutes "an empty
requiredRoles set always authorizes" as stated. -/
theorem authorize_empty_roles_denies :
    authorize { userId := 1, name := "n", email := "e", role := Role.user } (some []) = false := by
  rfl

/-- C6 (amended): the guard authorizes iff the roles metadata is absent (no
`@Roles` decorator on the handler) or the identity's role string is a member
of the roles array; absent metadata always authorizes, an explicitly empty
roles array denies everyone, and there is no role hierarchy:
Authorize(role user, [admin]) is false while Authorize(role admin, [admin])
is true. -/
theorem authorize_membership (identity : ResolvedIdentity) (rs : List String) :
    authorize identity none = true ∧
    (authorize identity (some rs) = true ↔ identity.role.str ∈ rs) ∧
    authorize { userId := 1, name := "n", email := "e", role := Role.user } (some ["admin"])
      = false ∧
    authorize { userId := 1, name := "n", email := "e", role := Role.admin } (some ["admin"])
      = true ∧
    authorize identity (some []) = false := by
  refine ⟨rfl, ?_, rfl, rfl, rfl⟩
  simp only [authorize, canActivate]
  exact List.elem_iff

/-- C7: a falsy `JWT_SECRET` — missing, or the empty string, both falsy to the
constructor's check — makes `JwtStrategy` construction fail with its fatal
error, so no strategy state ever exists to serve a request (fail-closed); and
token issuance reads its secret and expiry only from the startup
configuration value. -/
theorem jwt_secret_fail_closed (cfg : AppConfig)
    (habsent : cfg.jwtSecret = none ∨ cfg.jwtSecret = some "") :
    jwtStrategyInit cfg = .error jwtSecretMissingMsg ∧
    (∀ sc : JwtStrategyCfg, jwtStrategyInit cfg ≠ .ok sc) ∧
    (∀ (p : Payload) (now : Nat),
      generateToken cfg p now = jwtSign p cfg.jwtSecret cfg.jwtExpiresIn now) := by
  have h1 : jwtStrategyInit cfg = .error jwtSecretMissingMsg := by
    rcases habsent with h | h <;> simp [jwtStrategyInit, h]
  refine ⟨h1, ?_, fun p now => rfl⟩
  intro sc hok
  rw [h1] at hok
  exact Except.noConfusion hok

/-- Witness for C7 at a configuration with no `JWT_SECRET`. -/
theorem jwt_secret_fail_closed_witness :
    jwtStrategyInit { jwtSecret := none, jwtExpiresIn := 3600 } = .error jwtSecretMissingMsg ∧
    (∀ sc : JwtStrategyCfg,
      jwtStrategyInit { jwtSecret := none, jwtExpiresIn := 3600 } ≠ .ok sc) ∧
    (∀ (p : Payload) (now : Nat),
      generateToken { jwtSecret := none, jwtExpiresIn := 3600 } p now
        = jwtSign p (none : Option String) 3600 now) :=
  jwt_secret_fail_closed { jwtSecret := none, jwtExpiresIn := 3600 } (Or.inl rfl)

/-- C8: every row in the store after a registration is either a pre-existing
row or carries the default role `user`: the insert supplies no role (the
`RegisterDto` shape has none), so the schema default applies; no caller
obtains an admin account through Register. -/
theorem register_role_invariant (H : Hasher) (dto : RegisterDto) (st : Store) :
    ∀ u ∈ ((register H dto st).snd).users, u ∈ st.users ∨ u.role = Role.user := by
  intro u hu
  unfold register at hu
  cases hfind : findByEmail st dto.email with
  | some w =>
    rw [hfind] at hu
    exact Or.inl hu
  | none =>
    rw [hfind] at hu
    simp only [createUser, List.mem_append, List.mem_singleton] at hu
    rcases hu with hu | hu
    · exact Or.inl hu
    · right
      rw [hu]

/-- Witness for C8: the row created by registering on an empty store has role
`user`. -/
theorem register_role_invariant_witness :
    ({ Id := 1, name := "n", email := "e", password := "$toy$p" } : User)
        ∈ ({ users := [], nextId := 1 } : Store).users
      ∨ ({ Id := 1, name := "n", email := "e", password := "$toy$p" } : User).role = Role.user :=
  register_role_invariant toyHasher { name := "n", email := "e", password := "p" }
    { users := [], nextId := 1 }
    { Id := 1, name := "n", email := "e", password := "$toy$p" } (by decide)

/-- C9: `JwtStrategy.validate` reads only the subject claim and the live
store row, never the token's email claim: two verified tokens with the same
subject resolve to the same identity, and validate is invariant under any
payload change that keeps the subject. -/
theorem resolve_ignores_email_claim (sc : JwtStrategyCfg) (now : Nat) (t₁ t₂ : Token)
    (st : Store) (p₁ p₂ : Payload)
    (h₁ : jwtVerify t₁ sc.secretOrKey now = some p₁)
    (h₂ : jwtVerify t₂ sc.secretOrKey now = some p₂)
    (hsub : p₁.sub = p₂.sub) :
    resolveIdentity sc now t₁ st = resolveIdentity sc now t₂ st ∧
    (∀ (stAny : Store) (q₁ q₂ : Payload), q₁.sub = q₂.sub →
      jwtStrategyValidate stAny q₁ = jwtStrategyValidate stAny q₂) := by
  have hval : ∀ (stAny : Store) (q₁ q₂ : Payload), q₁.sub = q₂.sub →
      jwtStrategyValidate stAny q₁ = jwtStrategyValidate stAny q₂ := by
    intro stAny q₁ q₂ h
    unfold jwtStrategyValidate
    rw [h]
  constructor
  · show resolveIdentity sc now t₁ st = resolveIdentity sc now t₂ st
    unfold resolveIdentity
    rw [h₁, h₂]
    exact hval st p₁ p₂ hsub
  · exact hval

/-- Witness for C9: two tokens with subject 1 but different email claims
against a one-row store. -/
theorem resolve_ignores_email_claim_witness :
    resolveIdentity { secretOrKey := "k" } 0
        { payload := { sub := 1, email := "a@x" }, secret := some "k", exp := 5 }
        { users := [{ Id := 1, name := "n", email := "e", password := "h" }], nextId := 2 }
      = resolveIdentity { secretOrKey := "k" } 0
        { payload := { sub := 1, email := "b@x" }, secret := some "k", exp := 9 }
        { users := [{ Id := 1, name := "n", email := "e", password := "h" }], nextId := 2 } ∧
    (∀ (stAny : Store) (q₁ q₂ : Payload), q₁.sub = q₂.sub →
      jwtStrategyValidate stAny q₁ = jwtStrategyValidate stAny q₂) :=
  resolve_ignores_email_claim { secretOrKey := "k" } 0
    { payload := { sub := 1, email := "a@x" }, secret := some "k", exp := 5 }
    { payload := { sub := 1, email := "b@x" }, secret := some "k", exp := 9 }
    { users := [{ Id := 1, name := "n", email := "e", password := "h" }], nextId := 2 }
    { sub := 1, email := "a@x" } { sub := 1, email := "b@x" }
    (by rfl) (by rfl) (by rfl)

/-- C10: the duplicate-registration failure and both login failures are raised
as the same `BadRequestException` class (HTTP 400), distinguishable only by
their messages, and every failing login yields exactly that 400-class
exception — never a 401. -/
theorem error_channels (H : Hasher) (cfg : AppConfig) (now : Nat)
    (rdto : RegisterDto) (d₁ d₂ : LoginDto) (stR st₁ st₂ : Store) (w u : User)
    (hdup : findByEmail stR rdto.email = some w)
    (habs : findByEmail st₁ d₁.email = none)
    (hfind : findByEmail st₂ d₂.email = some u)
    (hv : H.verify d₂.password u.password = false) :
    (register H rdto stR).fst = .error ⟨.badRequestException, "User already exists"⟩ ∧
    (login H cfg now d₁ st₁).fst = .error ⟨.badRequestException, "Invalid credentials"⟩ ∧
    (login H cfg now d₂ st₂).fst = .error ⟨.badRequestException, "Invalid credentials"⟩ ∧
    ExceptionClass.badRequestException.httpStatus = 400 ∧
    ("User already exists" : String) ≠ "Invalid credentials" ∧
    (∀ (dto : LoginDto) (st : Store) (e : AuthException),
      (login H cfg now dto st).fst = .error e →
      e = ⟨.badRequestException, "Invalid credentials"⟩ ∧ e.cls.httpStatus = 400 ∧
        e.cls.httpStatus ≠ 401) := by
  refine ⟨by simp [register, hdup], by simp [login, habs],
          by simp [login, hfind, validatePassword, hv], rfl, by decide, ?_⟩
  intro dto st e h
  have he : e = ⟨.badRequestException, "Invalid credentials"⟩ := by
    unfold login at h
    cases hf : findByEmail st dto.email with
    | none =>
      rw [hf] at h
      simpa using h.symm
    | some uu =>
      rw [hf] at h
      cases hvv : validatePassword H dto.password uu.password with
      | false =>
        simp only [hvv, Bool.false_eq_true, if_false] at h
        simpa using h.symm
      | true =>
        simp only [hvv, if_true] at h
        exact absurd h (by simp)
  subst he
  exact ⟨rfl, rfl, by decide⟩

/-- Witness for C10 on concrete one-row stores. -/
theorem error_channels_witness :
    (register toyHasher { name := "n", email := "e", password := "p" }
        { users := [{ Id := 1, name := "n", email := "e", password := "q" }], nextId := 2 }).fst
      = .error ⟨.badRequestException, "User already exists"⟩ ∧
    (login toyHasher { jwtSecret := some "k", jwtExpiresIn := 3600 } 0
        { email := "x", password := "p" } { users := [], nextId := 1 }).fst
      = .error ⟨.badRequestException, "Invalid credentials"⟩ ∧
    (login toyHasher { jwtSecret := some "k", jwtExpiresIn := 3600 } 0
        { email := "e", password := "wrong" }
        { users := [{ Id := 1, name := "n", email := "e", password := "$toy$p" }], nextId := 2 }).fst
      = .error ⟨.badRequestException, "Invalid credentials"⟩ ∧
    ExceptionClass.badRequestException.httpStatus = 400 ∧
    ("User already exists" : String) ≠ "Invalid credentials" ∧
    (∀ (dto : LoginDto) (st : Store) (e : AuthException),
      (login toyHasher { jwtSecret := some "k", jwtExpiresIn := 3600 } 0 dto st).fst = .error e →
      e = ⟨.badRequestException, "Invalid credentials"⟩ ∧ e.cls.httpStatus = 400 ∧
        e.cls.httpStatus ≠ 401) :=
  error_channels toyHasher { jwtSecret := some "k", jwtExpiresIn := 3600 } 0
    { name := "n", email := "e", password := "p" }
    { email := "x", password := "p" } { email := "e", password := "wrong" }
    { users := [{ Id := 1, name := "n", email := "e", password := "q" }], nextId := 2 }
    { users := [], nextId := 1 }
    { users := [{ Id := 1, name := "n", email := "e", password := "$toy$p" }], nextId := 2 }
    { Id := 1, name := "n", email := "e", password := "q" }
    { Id := 1, name := "n", email := "e", password := "$toy$p" }
    (by rfl) (by rfl) (by rfl) (by decide)

end NestAuth
